import Mathlib

/-!
Shallow embedding of src/server.js (an Express + MongoDB REST gateway).

Parsed JSON request bodies are modelled as association lists of string keys
and JSON-like values; JavaScript object spreads become a key-overriding merge;
each route handler is a pure function from the connection state, the server
clock, a database-driver oracle and the parsed body to an HTTP response
together with the list of database calls it performed.
-/

namespace MongoApi

/-- JSON-compatible values as they appear in parsed request bodies, plus
server-generated Date values (constructor jtime), which JSON.parse can never
produce. Numbers are modelled as integers. -/
inductive JVal where
  | jnull
  | jbool (b : Bool)
  | jnum (n : Int)
  | jstr (s : String)
  | jtime (t : Nat)
  | jarr (elems : List JVal)
  | jobj (fields : List (String × JVal))

/-- A parsed JSON object (a JavaScript object): ordered fields, keys unique
in practice; lookup takes the first binding. -/
abbrev Doc := List (String × JVal)

/-- Property lookup on a JavaScript object: none models undefined. -/
def getField (d : Doc) (k : String) : Option JVal :=
  (d.find? (fun kv => kv.1 == k)).map (·.2)

/-- JavaScript delete of a property (delete req.body.api_key). -/
def removeField (d : Doc) (k : String) : Doc :=
  d.filter (fun kv => kv.1 != k)

/-- JavaScript truthiness of a value (!v is its negation). -/
def truthy : JVal → Bool
  | .jnull => false
  | .jbool b => b
  | .jnum n => !(n == 0)
  | .jstr s => !(s == "")
  | .jtime _ => true
  | .jarr _ => true
  | .jobj _ => true

/-- Truthiness of a possibly-undefined value (undefined is falsy). -/
def truthyOpt : Option JVal → Bool
  | none => false
  | some v => truthy v

/-- Object spread merge: spread a b models the object literal with the fields
of a spread first and the fields of b after, so keys of b win. (The relative
key order differs from JavaScript for overridden keys; per-key values agree.) -/
def spread (a b : Doc) : Doc :=
  a.filter (fun kv => !(b.any (fun kv2 => kv2.1 == kv.1))) ++ b

/-- Fields of a spread JavaScript value: objects contribute their fields,
undefined and primitives contribute nothing. (Spreading a string, which in
JavaScript yields index keys, is not modelled; no handler input in the
claims does that.) -/
def toObjFields : JVal → Doc
  | .jobj fs => fs
  | _ => []

/-- Fields contributed to a spread by a possibly-undefined value. -/
def objFields : Option JVal → Doc
  | none => []
  | some v => toObjFields v

mutual

/-- Structural equality on JSON-like values, used by the database-driver model
when matching filter fields against stored documents. -/
def JVal.beq : JVal → JVal → Bool
  | .jnull, .jnull => true
  | .jbool a, .jbool b => a == b
  | .jnum a, .jnum b => a == b
  | .jstr a, .jstr b => a == b
  | .jtime a, .jtime b => a == b
  | .jarr xs, .jarr ys => JVal.beqList xs ys
  | .jobj xs, .jobj ys => JVal.beqObj xs ys
  | _, _ => false

/-- Elementwise equality of value lists. -/
def JVal.beqList : List JVal → List JVal → Bool
  | [], [] => true
  | x :: xs, y :: ys => JVal.beq x y && JVal.beqList xs ys
  | _, _ => false

/-- Fieldwise equality of object field lists. -/
def JVal.beqObj : List (String × JVal) → List (String × JVal) → Bool
  | [], [] => true
  | kv :: xs, kw :: ys => kv.1 == kw.1 && JVal.beq kv.2 kw.2 && JVal.beqObj xs ys
  | _, _ => false

end

/-- JavaScript strict equality of a possibly-undefined value against a string
constant (the shape of the api_key comparison: a value of any runtime type
strictly equals a string only when it is that string). -/
def strictEqStr (v : Option JVal) (s : String) : Bool :=
  match v with
  | some (.jstr t) => t == s
  | _ => false

/-- Array.isArray on a possibly-undefined value. -/
def isArrayOpt : Option JVal → Bool
  | some (.jarr _) => true
  | _ => false

/-- Elements of an array value. -/
def arrElems : Option JVal → List JVal
  | some (.jarr xs) => xs
  | _ => []

/-- An HTTP response: status code and JSON body (res.status(s).json(b);
res.json(b) alone has status 200). -/
structure Response where
  status : Nat
  body : Doc

/-- The structured error body {success:false, error:msg} with a status. -/
def mkErrorResp (status : Nat) (msg : String) : Response :=
  ⟨status, [("success", .jbool false), ("error", .jstr msg)]⟩

/-- The module-level connection state read by every handler: the isConnected
flag and whether db is non-null. -/
structure ConnState where
  isConnected : Bool
  dbPresent : Bool

/-- A call made to the database driver by a handler, recorded so that
"performs no database call" is a statement about an empty list. -/
inductive DbCall where
  | insertOne (coll : JVal) (doc : Doc)
  | insertMany (coll : JVal) (docs : List Doc)
  | updateOne (coll : JVal) (filter : JVal) (setFields : Doc)

/-- Oracle for the outcomes of database-driver calls (the driver itself is an
external collaborator). insertOne yields the string rendering of the generated
identifier; insertMany yields insertedCount; updateOne yields
(matchedCount, modifiedCount). An error value is a thrown driver error whose
message the handler surfaces with status 500. -/
structure Driver where
  insertOne : JVal → Doc → Except String String
  insertMany : JVal → List Doc → Except String Nat
  updateOne : JVal → JVal → Doc → Except String (Nat × Nat)

/-- The authenticate middleware (src/server.js lines 41-64): reads
req.body.api_key; a falsy value (absent, empty string, 0, false, null) gives
401 "Missing api_key in request body"; a truthy value differing from the
configured API_KEY gives 401 "Invalid api_key"; otherwise the key is deleted
from the body and control continues. -/
def authenticate (API_KEY : String) (body : Doc) : Except Response Doc :=
  let apiKey := getField body "api_key"
  if !truthyOpt apiKey then
    .error (mkErrorResp 401 "Missing api_key in request body")
  else if !strictEqStr apiKey API_KEY then
    .error (mkErrorResp 401 "Invalid api_key")
  else
    .ok (removeField body "api_key")

/-- POST /api/insert handler (src/server.js lines 87-132), after
authentication. Validates collection and document by truthiness, then the
connectivity guard, then builds { ...document, ...metadata, createdAt } and
calls insertOne. now is the server clock value used for new Date(). -/
def insertHandler (st : ConnState) (now : Nat) (drv : Driver) (body : Doc) :
    Response × List DbCall :=
  let collection := getField body "collection"
  let document := getField body "document"
  let metadata := getField body "metadata"
  if !truthyOpt collection || !truthyOpt document then
    (mkErrorResp 400 "Missing required fields: collection, document", [])
  else if !st.isConnected || !st.dbPresent then
    (mkErrorResp 503 "Database not connected", [])
  else
    let coll := collection.getD .jnull
    let docToInsert :=
      spread (spread (objFields document) (objFields metadata))
        [("createdAt", .jtime now)]
    match drv.insertOne coll docToInsert with
    | .ok oid =>
        (⟨200, [("success", .jbool true), ("insertedId", .jstr oid),
                ("collection", coll)]⟩,
         [.insertOne coll docToInsert])
    | .error msg => (mkErrorResp 500 msg, [.insertOne coll docToInsert])

/-- POST /api/insert_many handler (src/server.js lines 135-180), after
authentication. Validates collection, documents and Array.isArray(documents),
then the connectivity guard, then stamps every element with metadata and
createdAt and calls insertMany. -/
def insertManyHandler (st : ConnState) (now : Nat) (drv : Driver) (body : Doc) :
    Response × List DbCall :=
  let collection := getField body "collection"
  let documents := getField body "documents"
  let metadata := getField body "metadata"
  if !truthyOpt collection || !truthyOpt documents || !isArrayOpt documents then
    (mkErrorResp 400 "Missing required fields: collection, documents (array)", [])
  else if !st.isConnected || !st.dbPresent then
    (mkErrorResp 503 "Database not connected", [])
  else
    let coll := collection.getD .jnull
    let docsToInsert :=
      (arrElems documents).map (fun d =>
        spread (spread (toObjFields d) (objFields metadata))
          [("createdAt", .jtime now)])
    match drv.insertMany coll docsToInsert with
    | .ok n =>
        (⟨200, [("success", .jbool true), ("insertedCount", .jnum n),
                ("collection", coll)]⟩,
         [.insertMany coll docsToInsert])
    | .error msg => (mkErrorResp 500 msg, [.insertMany coll docsToInsert])

/-- PUT /api/update handler (src/server.js lines 183-230), after
authentication. Validates collection, filter and update by truthiness, then
the connectivity guard, then calls updateOne with the filter passed verbatim
and $set: { ...update, updatedAt }. -/
def updateHandler (st : ConnState) (now : Nat) (drv : Driver) (body : Doc) :
    Response × List DbCall :=
  let collection := getField body "collection"
  let filter := getField body "filter"
  let update := getField body "update"
  if !truthyOpt collection || !truthyOpt filter || !truthyOpt update then
    (mkErrorResp 400 "Missing required fields: collection, filter, update", [])
  else if !st.isConnected || !st.dbPresent then
    (mkErrorResp 503 "Database not connected", [])
  else
    let coll := collection.getD .jnull
    let filterVal := filter.getD .jnull
    let setFields :=
      spread (objFields update) [("updatedAt", .jtime now)]
    match drv.updateOne coll filterVal setFields with
    | .ok res =>
        (⟨200, [("success", .jbool true), ("matchedCount", .jnum res.1),
                ("modifiedCount", .jnum res.2), ("collection", coll)]⟩,
         [.updateOne coll filterVal setFields])
    | .error msg => (mkErrorResp 500 msg, [.updateOne coll filterVal setFields])

/-- GET / handler (src/server.js lines 67-74). -/
def rootResp (st : ConnState) : Response :=
  ⟨200, [("service", .jstr "QuantConnect MongoDB API"),
         ("version", .jstr "1.0.0"),
         ("status", .jstr (if st.isConnected then "connected" else "connecting")),
         ("endpoints", .jarr [.jstr "/health", .jstr "/api/insert",
                              .jstr "/api/insert_many", .jstr "/api/update"])]⟩

/-- GET /health handler (src/server.js lines 77-84). -/
def healthResp (st : ConnState) (now uptime : Nat) : Response :=
  ⟨200, [("status", .jstr "ok"),
         ("mongodb", .jstr (if st.isConnected then "connected" else "disconnected")),
         ("timestamp", .jtime now),
         ("uptime", .jnum uptime)]⟩

/-- HTTP method of a request. -/
inductive Method where
  | GET
  | POST
  | PUT
  | DELETE
  deriving Repr, DecidableEq

/-- A request: method, path and parsed JSON body. -/
structure Request where
  method : Method
  path : String
  body : Doc

/-- Runs a handler behind the authenticate middleware: a 401 is returned as
is (and no database call happens); otherwise the handler receives the body
with api_key removed. -/
def withAuth (API_KEY : String) (body : Doc)
    (handler : Doc → Response × List DbCall) : Response × List DbCall :=
  match authenticate API_KEY body with
  | .error resp => (resp, [])
  | .ok stripped => handler stripped

/-- The routing table of the app, in registration order, ending in the
catch-all 404 (src/server.js lines 233-238). There is no /api/query and no
/api/delete route. -/
def route (API_KEY : String) (st : ConnState) (now uptime : Nat) (drv : Driver)
    (req : Request) : Response × List DbCall :=
  if req.method == .GET && req.path == "/" then
    (rootResp st, [])
  else if req.method == .GET && req.path == "/health" then
    (healthResp st now uptime, [])
  else if req.method == .POST && req.path == "/api/insert" then
    withAuth API_KEY req.body (insertHandler st now drv)
  else if req.method == .POST && req.path == "/api/insert_many" then
    withAuth API_KEY req.body (insertManyHandler st now drv)
  else if req.method == .PUT && req.path == "/api/update" then
    withAuth API_KEY req.body (updateHandler st now drv)
  else
    (mkErrorResp 404 "Endpoint not found", [])

/-- Process-level state for the connection lifecycle (connectDB,
src/server.js lines 20-38): the connection state, the delay in milliseconds
of a scheduled reconnect attempt if one is pending, and whether the process
has terminated. -/
structure ServerState where
  conn : ConnState
  pendingRetryDelayMs : Option Nat
  terminated : Bool

/-- connectDB as a state transition, parametrised by whether the connection
attempt (connect + ping) succeeds. On success it stores the handle and sets
isConnected; on failure the catch block sets isConnected to false and
schedules connectDB again after 5000 ms. Neither branch terminates the
process. -/
def connectDB (attemptOk : Bool) (st : ServerState) : ServerState :=
  if attemptOk then
    { st with conn := { isConnected := true, dbPresent := true },
              pendingRetryDelayMs := none }
  else
    { st with conn := { st.conn with isConnected := false },
              pendingRetryDelayMs := some 5000 }

/-- Modelled from the driver's documented contract (the MongoDB driver is an
external collaborator, excluded from the repository): whether a stored
document satisfies a filter, each filter field comparing equal to the
document's value at that key. -/
def docMatches (filter : Doc) (d : Doc) : Bool :=
  filter.all (fun kv =>
    match getField d kv.1 with
    | some v => JVal.beq v kv.2
    | none => false)

/-- Modelled from the driver's documented contract: updateOne over the given
collection contents finds the first document matching the filter; with no
match it succeeds with matchedCount 0 and modifiedCount 0; with a match it
reports matchedCount 1 and modifiedCount 1 when applying the $set fields
changes the document. -/
def mongoUpdateOne (store : List Doc) (filterVal : JVal) (setFields : Doc) :
    Except String (Nat × Nat) :=
  match store.find? (docMatches (toObjFields filterVal)) with
  | none => .ok (0, 0)
  | some d => .ok (1, if JVal.beqObj (spread d setFields) d then 0 else 1)

/-- An honest driver backed by a single collection's contents: insertOne
succeeds yielding the given identifier string, insertMany inserts everything,
updateOne follows mongoUpdateOne. -/
def storeDriver (oid : String) (store : List Doc) : Driver where
  insertOne := fun _ _ => .ok oid
  insertMany := fun _ ds => .ok ds.length
  updateOne := fun _ fv sf => mongoUpdateOne store fv sf

/-- The method/path pairs of the data endpoints registered in the app, all
behind the authenticate middleware. -/
def dataEndpoint (m : Method) (p : String) : Bool :=
  (m == .POST && (p == "/api/insert" || p == "/api/insert_many")) ||
  (m == .PUT && p == "/api/update")

/-- The handler a data endpoint dispatches to after authentication. -/
def dataHandler (m : Method) (p : String) :
    ConnState → Nat → Driver → Doc → Response × List DbCall :=
  if m == .POST && p == "/api/insert" then insertHandler
  else if m == .POST && p == "/api/insert_many" then insertManyHandler
  else updateHandler

/-! Concrete fixtures used by witness and counterexample theorems. -/

/-- A driver over an empty collection generating a fixed ObjectId string. -/
def wDrv : Driver := storeDriver "68f0a1b2c3d4e5f601234567" []

/-- A well-formed insert body carrying the configured key "secret". -/
def wInsertBody : Doc :=
  [("api_key", .jstr "secret"), ("collection", .jstr "c"),
   ("document", .jobj [("a", .jnum 1)])]

/-- A well-formed insert body that also carries a metadata object. -/
def wInsertMetaBody : Doc :=
  [("api_key", .jstr "secret"), ("collection", .jstr "c"),
   ("document", .jobj [("a", .jnum 1)]),
   ("metadata", .jobj [("source", .jstr "qc")])]

/-- A well-formed insert_many body with two documents. -/
def wManyBody : Doc :=
  [("api_key", .jstr "secret"), ("collection", .jstr "c"),
   ("documents", .jarr [.jobj [("a", .jnum 1)], .jobj [("a", .jnum 2)]])]

/-- A well-formed update body with filter {a:1} and update {b:2}. -/
def wUpdateBody : Doc :=
  [("api_key", .jstr "secret"), ("collection", .jstr "c"),
   ("filter", .jobj [("a", .jnum 1)]), ("update", .jobj [("b", .jnum 2)])]

/-! Lookup lemmas about spread and removeField. -/

theorem getField_eq_none_of_any_eq_false (b : Doc) (k : String)
    (h : b.any (fun kv => kv.1 == k) = false) : getField b k = none := by
  cases hf : b.find? (fun kv => kv.1 == k) with
  | none => simp [getField, hf]
  | some x =>
      have hmem := List.mem_of_find?_eq_some hf
      have hpred := List.find?_some hf
      have hany : b.any (fun kv => kv.1 == k) = true :=
        List.any_eq_true.mpr ⟨x, hmem, hpred⟩
      rw [hany] at h
      cases h

theorem any_eq_true_of_getField_eq_some (b : Doc) (k : String) (v : JVal)
    (h : getField b k = some v) : b.any (fun kv => kv.1 == k) = true := by
  cases hf : b.find? (fun kv => kv.1 == k) with
  | none => rw [getField, hf] at h; cases h
  | some x =>
      have hmem := List.mem_of_find?_eq_some hf
      have hpred := List.find?_some hf
      exact List.any_eq_true.mpr ⟨x, hmem, hpred⟩

/-- Per-key semantics of the object-spread merge: keys present in the second
operand take its value, all other keys fall back to the first operand. -/
theorem getField_spread (a b : Doc) (k : String) :
    getField (spread a b) k =
      if b.any (fun kv => kv.1 == k) then getField b k else getField a k := by
  induction a with
  | nil =>
      have hsp : spread [] b = b := by simp [spread]
      rw [hsp]
      cases hb : b.any (fun kv => kv.1 == k) with
      | true => simp
      | false =>
          rw [getField_eq_none_of_any_eq_false b k hb]
          simp [getField]
  | cons kv a ih =>
      cases hkvb : b.any (fun kv2 => kv2.1 == kv.1) with
      | true =>
          have hspread : spread (kv :: a) b = spread a b := by
            simp [spread, List.filter_cons, hkvb]
          rw [hspread, ih]
          cases hb : b.any (fun kv2 => kv2.1 == k) with
          | true => simp
          | false =>
              have hkvk : (kv.1 == k) = false := by
                cases hkk : kv.1 == k with
                | false => rfl
                | true =>
                    rw [eq_of_beq hkk] at hkvb
                    rw [hkvb] at hb
                    cases hb
              simp [getField, List.find?_cons, hkvk]
      | false =>
          have hspread : spread (kv :: a) b = kv :: spread a b := by
            simp [spread, List.filter_cons, hkvb]
          rw [hspread]
          cases hkk : kv.1 == k with
          | true =>
              have hbk : b.any (fun kv2 => kv2.1 == k) = false := by
                rw [← eq_of_beq hkk]; exact hkvb
              simp [getField, List.find?_cons, hkk, hbk]
          | false =>
              have hcons : getField (kv :: spread a b) k = getField (spread a b) k := by
                simp [getField, List.find?_cons, hkk]
              have hcons2 : getField (kv :: a) k = getField a k := by
                simp [getField, List.find?_cons, hkk]
              rw [hcons, hcons2, ih]

theorem getField_spread_of_some (a b : Doc) (k : String) (v : JVal)
    (h : getField b k = some v) : getField (spread a b) k = some v := by
  rw [getField_spread, any_eq_true_of_getField_eq_some b k v h]
  simpa using h

theorem getField_spread_of_none (a b : Doc) (k : String)
    (h : getField b k = none) : getField (spread a b) k = getField a k := by
  cases hb : b.any (fun kv => kv.1 == k) with
  | false => rw [getField_spread, hb]; simp
  | true =>
      rcases List.any_eq_true.mp hb with ⟨x, hx, hpred⟩
      have := List.find?_eq_none.mp (by
        cases hf : b.find? (fun kv => kv.1 == k) with
        | none => rfl
        | some y => rw [getField, hf] at h; cases h) x hx
      exact absurd hpred this

theorem removeField_any_eq_false (b : Doc) (k : String) :
    (removeField b k).any (fun kv => kv.1 == k) = false := by
  cases hany : (removeField b k).any (fun kv => kv.1 == k) with
  | false => rfl
  | true =>
      rcases List.any_eq_true.mp hany with ⟨x, hx, hpred⟩
      rcases List.mem_filter.mp hx with ⟨_, hkeep⟩
      rw [bne, eq_of_beq hpred] at hkeep
      simp at hkeep

/-- Deleting a key makes a later lookup of it yield undefined. -/
theorem getField_removeField_self (b : Doc) (k : String) :
    getField (removeField b k) k = none :=
  getField_eq_none_of_any_eq_false _ _ (removeField_any_eq_false b k)

/-- Deleting a key leaves every other key's value unchanged. -/
theorem getField_removeField_of_ne (b : Doc) (k k2 : String) (h : k2 ≠ k) :
    getField (removeField b k) k2 = getField b k2 := by
  induction b with
  | nil => rfl
  | cons kv b ih =>
      cases hkk : kv.1 == k2 with
      | true =>
          have hne : (kv.1 != k) = true := by
            rw [bne, eq_of_beq hkk]
            simpa using h
          simp [removeField, List.filter_cons, hne, getField, List.find?_cons, hkk]
      | false =>
          cases hkeep : kv.1 != k with
          | true =>
              simp only [removeField, List.filter_cons, hkeep, if_true]
              simp only [getField, List.find?_cons, hkk]
              exact ih
          | false =>
              simp only [removeField, List.filter_cons, hkeep]
              simp only [getField, List.find?_cons, hkk]
              exact ih

/-! Small evaluation equations kept as rewrite rules. -/

theorem truthyOpt_some (v : JVal) : truthyOpt (some v) = truthy v := rfl

theorem truthyOpt_none : truthyOpt none = false := rfl

theorem truthy_jobj (fs : Doc) : truthy (.jobj fs) = true := rfl

theorem truthy_jarr (xs : List JVal) : truthy (.jarr xs) = true := rfl

theorem objFields_some_jobj (fs : Doc) : objFields (some (.jobj fs)) = fs := rfl

theorem objFields_none : objFields none = [] := rfl

theorem objFields_some (v : JVal) : objFields (some v) = toObjFields v := rfl

theorem isArrayOpt_jarr (xs : List JVal) : isArrayOpt (some (.jarr xs)) = true := rfl

theorem arrElems_jarr (xs : List JVal) : arrElems (some (.jarr xs)) = xs := rfl

theorem getField_singleton_self (k : String) (v : JVal) :
    getField [(k, v)] k = some v := by
  simp [getField, List.find?]

theorem getField_singleton_ne (k k2 : String) (v : JVal) (h : k2 ≠ k) :
    getField [(k2, v)] k = none := by
  have hb : (k2 == k) = false := beq_eq_false_iff_ne.mpr h
  simp [getField, List.find?, hb]

/-! Behaviour of the authenticate middleware around a handler. -/

theorem withAuth_missing (K : String) (body : Doc)
    (h : Doc → Response × List DbCall)
    (hk : truthyOpt (getField body "api_key") = false) :
    withAuth K body h = (mkErrorResp 401 "Missing api_key in request body", []) := by
  simp [withAuth, authenticate, hk]

theorem withAuth_invalid (K : String) (body : Doc)
    (h : Doc → Response × List DbCall)
    (hk : truthyOpt (getField body "api_key") = true)
    (hne : strictEqStr (getField body "api_key") K = false) :
    withAuth K body h = (mkErrorResp 401 "Invalid api_key", []) := by
  simp [withAuth, authenticate, hk, hne]

theorem withAuth_ok (K : String) (body : Doc)
    (h : Doc → Response × List DbCall)
    (hk : truthyOpt (getField body "api_key") = true)
    (heq : strictEqStr (getField body "api_key") K = true) :
    withAuth K body h = h (removeField body "api_key") := by
  simp [withAuth, authenticate, hk, heq]

/-- Every data endpoint dispatches through authenticate to its handler. -/
theorem route_dataEndpoint (K : String) (st : ConnState) (now uptime : Nat)
    (drv : Driver) (m : Method) (p : String) (body : Doc)
    (hmp : dataEndpoint m p = true) :
    route K st now uptime drv ⟨m, p, body⟩ =
      withAuth K body (dataHandler m p st now drv) := by
  cases m with
  | GET => simp [dataEndpoint] at hmp
  | DELETE => simp [dataEndpoint] at hmp
  | POST =>
      simp [dataEndpoint] at hmp
      rcases hmp with hmp | hmp <;> subst hmp <;> rfl
  | PUT =>
      simp [dataEndpoint] at hmp
      subst hmp
      rfl

/-- C1 (amended): for every request to a data endpoint (/api/insert,
/api/insert_many, /api/update), if the parsed body's api_key is absent or
falsy (for example the empty string) the response is 401 with
{success:false, error:"Missing api_key in request body"}; if the api_key is
truthy but is not the configured key the response is 401 with
{success:false, error:"Invalid api_key"}; and if the api_key is truthy and
equals the configured key, control passes to the endpoint's handler with the
api_key field removed from the parsed body. -/
theorem auth_contract (K : String) (st : ConnState) (now uptime : Nat)
    (drv : Driver) (m : Method) (p : String) (body : Doc)
    (hmp : dataEndpoint m p = true) :
    (truthyOpt (getField body "api_key") = false →
      route K st now uptime drv ⟨m, p, body⟩ =
        (mkErrorResp 401 "Missing api_key in request body", [])) ∧
    (truthyOpt (getField body "api_key") = true →
      strictEqStr (getField body "api_key") K = false →
      route K st now uptime drv ⟨m, p, body⟩ =
        (mkErrorResp 401 "Invalid api_key", [])) ∧
    (truthyOpt (getField body "api_key") = true →
      strictEqStr (getField body "api_key") K = true →
      route K st now uptime drv ⟨m, p, body⟩ =
        dataHandler m p st now drv (removeField body "api_key") ∧
      getField (removeField body "api_key") "api_key" = none) := by
  refine ⟨?_, ?_, ?_⟩
  · intro hk
    rw [route_dataEndpoint K st now uptime drv m p body hmp]
    exact withAuth_missing K body _ hk
  · intro hk hne
    rw [route_dataEndpoint K st now uptime drv m p body hmp]
    exact withAuth_invalid K body _ hk hne
  · intro hk heq
    rw [route_dataEndpoint K st now uptime drv m p body hmp]
    exact ⟨withAuth_ok K body _ hk heq, getField_removeField_self body "api_key"⟩

/-- C1 counterexample: a body whose api_key field is present but equals the
empty string has an api_key differing from the configured key "secret", yet
the response error is "Missing api_key in request body", not
"Invalid api_key", because the middleware tests the key by truthiness. -/
theorem auth_empty_key_cex :
    getField [("api_key", JVal.jstr ""), ("collection", JVal.jstr "c"),
              ("document", JVal.jobj [("a", JVal.jnum 1)])] "api_key"
        = some (JVal.jstr "") ∧
    JVal.jstr "" ≠ JVal.jstr "secret" ∧
    (route "secret" ⟨true, true⟩ 0 0 wDrv
        ⟨.POST, "/api/insert",
         [("api_key", JVal.jstr ""), ("collection", JVal.jstr "c"),
          ("document", JVal.jobj [("a", JVal.jnum 1)])]⟩).1 =
      mkErrorResp 401 "Missing api_key in request body" ∧
    "Missing api_key in request body" ≠ "Invalid api_key" := by
  refine ⟨rfl, ?_, rfl, by decide⟩
  intro h
  injection h with h2
  exact absurd h2 (by decide)

/-- C1 witness: a POST to /api/insert whose body has no api_key field gets
the 401 missing-key response. -/
theorem auth_contract_witness :
    dataEndpoint .POST "/api/insert" = true ∧
    route "secret" ⟨true, true⟩ 0 0 wDrv
        ⟨.POST, "/api/insert", [("collection", JVal.jstr "c")]⟩ =
      (mkErrorResp 401 "Missing api_key in request body", []) :=
  ⟨by decide,
   (auth_contract "secret" ⟨true, true⟩ 0 0 wDrv .POST "/api/insert"
      [("collection", JVal.jstr "c")] (by decide)).1 rfl⟩

/-- C2 (amended): while isConnected is false, each of the three data
endpoints that exist (/api/insert, /api/insert_many, /api/update), given an
authenticated request with all required fields present, returns 503
{success:false, error:"Database not connected"} and performs no database
call; there is no /api/query route, so a POST to /api/query instead falls to
the catch-all and returns 404 (also with no database call). -/
theorem disconnected_503_no_dbcall (K : String) (st : ConnState)
    (now uptime : Nat) (drv : Driver) (b1 b2 b3 bq : Doc)
    (hconn : st.isConnected = false)
    (hA1 : truthyOpt (getField b1 "api_key") = true)
    (hK1 : strictEqStr (getField b1 "api_key") K = true)
    (hc1 : truthyOpt (getField b1 "collection") = true)
    (hd1 : truthyOpt (getField b1 "document") = true)
    (hA2 : truthyOpt (getField b2 "api_key") = true)
    (hK2 : strictEqStr (getField b2 "api_key") K = true)
    (hc2 : truthyOpt (getField b2 "collection") = true)
    (hd2 : truthyOpt (getField b2 "documents") = true)
    (harr2 : isArrayOpt (getField b2 "documents") = true)
    (hA3 : truthyOpt (getField b3 "api_key") = true)
    (hK3 : strictEqStr (getField b3 "api_key") K = true)
    (hc3 : truthyOpt (getField b3 "collection") = true)
    (hf3 : truthyOpt (getField b3 "filter") = true)
    (hu3 : truthyOpt (getField b3 "update") = true) :
    route K st now uptime drv ⟨.POST, "/api/insert", b1⟩ =
      (mkErrorResp 503 "Database not connected", []) ∧
    route K st now uptime drv ⟨.POST, "/api/insert_many", b2⟩ =
      (mkErrorResp 503 "Database not connected", []) ∧
    route K st now uptime drv ⟨.PUT, "/api/update", b3⟩ =
      (mkErrorResp 503 "Database not connected", []) ∧
    route K st now uptime drv ⟨.POST, "/api/query", bq⟩ =
      (mkErrorResp 404 "Endpoint not found", []) := by
  refine ⟨?_, ?_, ?_, rfl⟩
  · have hr : route K st now uptime drv ⟨.POST, "/api/insert", b1⟩ =
        withAuth K b1 (insertHandler st now drv) := rfl
    rw [hr, withAuth_ok K b1 _ hA1 hK1]
    have e1 : getField (removeField b1 "api_key") "collection" =
        getField b1 "collection" :=
      getField_removeField_of_ne b1 "api_key" "collection" (by decide)
    have e2 : getField (removeField b1 "api_key") "document" =
        getField b1 "document" :=
      getField_removeField_of_ne b1 "api_key" "document" (by decide)
    simp [insertHandler, e1, e2, hc1, hd1, hconn]
  · have hr : route K st now uptime drv ⟨.POST, "/api/insert_many", b2⟩ =
        withAuth K b2 (insertManyHandler st now drv) := rfl
    rw [hr, withAuth_ok K b2 _ hA2 hK2]
    have e1 : getField (removeField b2 "api_key") "collection" =
        getField b2 "collection" :=
      getField_removeField_of_ne b2 "api_key" "collection" (by decide)
    have e2 : getField (removeField b2 "api_key") "documents" =
        getField b2 "documents" :=
      getField_removeField_of_ne b2 "api_key" "documents" (by decide)
    simp [insertManyHandler, e1, e2, hc2, hd2, harr2, hconn]
  · have hr : route K st now uptime drv ⟨.PUT, "/api/update", b3⟩ =
        withAuth K b3 (updateHandler st now drv) := rfl
    rw [hr, withAuth_ok K b3 _ hA3 hK3]
    have e1 : getField (removeField b3 "api_key") "collection" =
        getField b3 "collection" :=
      getField_removeField_of_ne b3 "api_key" "collection" (by decide)
    have e2 : getField (removeField b3 "api_key") "filter" =
        getField b3 "filter" :=
      getField_removeField_of_ne b3 "api_key" "filter" (by decide)
    have e3 : getField (removeField b3 "api_key") "update" =
        getField b3 "update" :=
      getField_removeField_of_ne b3 "api_key" "update" (by decide)
    simp [updateHandler, e1, e2, e3, hc3, hf3, hu3, hconn]

/-- C2 counterexample: /api/query is listed by the claim as a data endpoint,
but no such route exists; an authenticated POST to /api/query with a
collection while disconnected gets the 404 catch-all, not 503. -/
theorem query_disconnected_cex :
    route "secret" ⟨false, false⟩ 0 0 wDrv
        ⟨.POST, "/api/query",
         [("api_key", JVal.jstr "secret"), ("collection", JVal.jstr "c")]⟩ =
      (mkErrorResp 404 "Endpoint not found", []) ∧
    (mkErrorResp 404 "Endpoint not found").status ≠ 503 :=
  ⟨rfl, by decide⟩

/-- C2 witness: with the connection down, authenticated well-formed requests
to the three existing data endpoints all get 503 with no database call, and
a POST to /api/query gets 404. -/
theorem disconnected_503_no_dbcall_witness :
    (⟨false, false⟩ : ConnState).isConnected = false ∧
    (route "secret" ⟨false, false⟩ 1 2 wDrv ⟨.POST, "/api/insert", wInsertBody⟩ =
      (mkErrorResp 503 "Database not connected", []) ∧
     route "secret" ⟨false, false⟩ 1 2 wDrv ⟨.POST, "/api/insert_many", wManyBody⟩ =
      (mkErrorResp 503 "Database not connected", []) ∧
     route "secret" ⟨false, false⟩ 1 2 wDrv ⟨.PUT, "/api/update", wUpdateBody⟩ =
      (mkErrorResp 503 "Database not connected", []) ∧
     route "secret" ⟨false, false⟩ 1 2 wDrv ⟨.POST, "/api/query", wInsertBody⟩ =
      (mkErrorResp 404 "Endpoint not found", [])) :=
  ⟨rfl,
   disconnected_503_no_dbcall "secret" ⟨false, false⟩ 1 2 wDrv
     wInsertBody wManyBody wUpdateBody wInsertBody
     rfl rfl rfl rfl rfl rfl rfl rfl rfl rfl rfl rfl rfl rfl rfl⟩

/-- C3 (amended): the service has no /api/query endpoint at all; a POST to
/api/query, whatever the api_key, body fields or connection state, falls to
the catch-all and returns 404 {success:false, error:"Endpoint not found"}
and performs no database call. -/
theorem no_query_route (K : String) (st : ConnState) (now uptime : Nat)
    (drv : Driver) (body : Doc) :
    route K st now uptime drv ⟨.POST, "/api/query", body⟩ =
      (mkErrorResp 404 "Endpoint not found", []) := rfl

/-- C3 counterexample: a POST to /api/query with a valid api_key, a
collection, a filter and a limit, while connected and with a matching
document in the store, is answered 404, not with the claimed query
behaviour (matching documents and their count), nor 400, nor 503. -/
theorem query_connected_cex :
    route "secret" ⟨true, true⟩ 0 0
        (storeDriver "x" [[("a", JVal.jnum 1)]])
        ⟨.POST, "/api/query",
         [("api_key", JVal.jstr "secret"), ("collection", JVal.jstr "c"),
          ("filter", JVal.jobj [("a", JVal.jnum 1)]), ("limit", JVal.jnum 5)]⟩ =
      (mkErrorResp 404 "Endpoint not found", []) ∧
    (mkErrorResp 404 "Endpoint not found").status ≠ 200 ∧
    (mkErrorResp 404 "Endpoint not found").status ≠ 400 ∧
    (mkErrorResp 404 "Endpoint not found").status ≠ 503 :=
  ⟨rfl, by decide, by decide, by decide⟩

/-- C4: a POST to /api/insert with a valid api_key, a truthy collection and
an object document, while connected and with the driver call succeeding with
identifier oid, responds success:true with insertedId the (non-empty) string
oid and the collection value; the record handed to insertOne is the caller's
document merged with the metadata and a server-generated createdAt (a Date,
which no parsed JSON payload can contain), absent from the original
document. -/
theorem insert_success_shape (K : String) (st : ConnState) (now uptime : Nat)
    (drv : Driver) (body : Doc) (c : JVal) (dfs : Doc) (mv : Option JVal)
    (oid : String)
    (hA : truthyOpt (getField body "api_key") = true)
    (hK : strictEqStr (getField body "api_key") K = true)
    (hc : getField body "collection" = some c)
    (htc : truthy c = true)
    (hd : getField body "document" = some (.jobj dfs))
    (hm : getField body "metadata" = mv)
    (hconn : st.isConnected = true)
    (hdb : st.dbPresent = true)
    (hdrv : drv.insertOne c
        (spread (spread dfs (objFields mv)) [("createdAt", .jtime now)]) = .ok oid)
    (hoid : oid ≠ "")
    (hnew : getField dfs "createdAt" = none) :
    route K st now uptime drv ⟨.POST, "/api/insert", body⟩ =
      (⟨200, [("success", .jbool true), ("insertedId", .jstr oid),
              ("collection", c)]⟩,
       [.insertOne c (spread (spread dfs (objFields mv)) [("createdAt", .jtime now)])]) ∧
    getField (spread (spread dfs (objFields mv)) [("createdAt", .jtime now)])
        "createdAt" = some (.jtime now) ∧
    getField dfs "createdAt" = none ∧
    oid ≠ "" := by
  refine ⟨?_, getField_spread_of_some _ _ _ _ rfl, hnew, hoid⟩
  have hr : route K st now uptime drv ⟨.POST, "/api/insert", body⟩ =
      withAuth K body (insertHandler st now drv) := rfl
  rw [hr, withAuth_ok K body _ hA hK]
  have e1 : getField (removeField body "api_key") "collection" = some c := by
    rw [getField_removeField_of_ne body "api_key" "collection" (by decide)]
    exact hc
  have e2 : getField (removeField body "api_key") "document" = some (.jobj dfs) := by
    rw [getField_removeField_of_ne body "api_key" "document" (by decide)]
    exact hd
  have e3 : getField (removeField body "api_key") "metadata" = mv := by
    rw [getField_removeField_of_ne body "api_key" "metadata" (by decide)]
    exact hm
  simp [insertHandler, e1, e2, e3, truthyOpt_some, truthy_jobj,
        objFields_some_jobj, htc, hconn, hdb, hdrv]

/-- C4 witness: inserting document {a:1} into collection "c" with the valid
key while connected yields success with the generated identifier, and the
record sent to the driver carries the server createdAt the payload lacked. -/
theorem insert_success_shape_witness :
    getField [("a", JVal.jnum 1)] "createdAt" = none ∧
    (route "secret" ⟨true, true⟩ 7 0 wDrv ⟨.POST, "/api/insert", wInsertBody⟩ =
      (⟨200, [("success", .jbool true),
              ("insertedId", .jstr "68f0a1b2c3d4e5f601234567"),
              ("collection", .jstr "c")]⟩,
       [.insertOne (.jstr "c")
          (spread (spread [("a", JVal.jnum 1)] (objFields none))
            [("createdAt", .jtime 7)])]) ∧
     getField (spread (spread [("a", JVal.jnum 1)] (objFields none))
        [("createdAt", .jtime 7)]) "createdAt" = some (.jtime 7) ∧
     getField [("a", JVal.jnum 1)] "createdAt" = none ∧
     ("68f0a1b2c3d4e5f601234567" : String) ≠ "") :=
  ⟨rfl,
   insert_success_shape "secret" ⟨true, true⟩ 7 0 wDrv wInsertBody (.jstr "c")
     [("a", JVal.jnum 1)] none "68f0a1b2c3d4e5f601234567"
     rfl rfl rfl rfl rfl rfl rfl rfl rfl (by decide) rfl⟩

/-- C5: when a body carrying the api_key passes authentication, the
top-level api_key field is deleted before the insert handler builds the
record: the record handed to insertOne is built only from the document and
metadata fields (so, whenever those do not themselves embed an "api_key"
key, no "api_key" key occurs in the persisted record), and looking up
api_key in the stripped body yields undefined. -/
theorem api_key_not_persisted (K : String) (st : ConnState) (now uptime : Nat)
    (drv : Driver) (body : Doc) (c : JVal) (dfs : Doc) (mv : Option JVal)
    (hA : truthyOpt (getField body "api_key") = true)
    (hK : strictEqStr (getField body "api_key") K = true)
    (hc : getField body "collection" = some c)
    (htc : truthy c = true)
    (hd : getField body "document" = some (.jobj dfs))
    (hm : getField body "metadata" = mv)
    (hconn : st.isConnected = true)
    (hdb : st.dbPresent = true)
    (hda : getField dfs "api_key" = none)
    (hma : getField (objFields mv) "api_key" = none) :
    (route K st now uptime drv ⟨.POST, "/api/insert", body⟩).2 =
      [.insertOne c (spread (spread dfs (objFields mv)) [("createdAt", .jtime now)])] ∧
    getField (spread (spread dfs (objFields mv)) [("createdAt", .jtime now)])
        "api_key" = none ∧
    getField (removeField body "api_key") "api_key" = none := by
  refine ⟨?_, ?_, getField_removeField_self body "api_key"⟩
  · have hr : route K st now uptime drv ⟨.POST, "/api/insert", body⟩ =
        withAuth K body (insertHandler st now drv) := rfl
    rw [hr, withAuth_ok K body _ hA hK]
    have e1 : getField (removeField body "api_key") "collection" = some c := by
      rw [getField_removeField_of_ne body "api_key" "collection" (by decide)]
      exact hc
    have e2 : getField (removeField body "api_key") "document" = some (.jobj dfs) := by
      rw [getField_removeField_of_ne body "api_key" "document" (by decide)]
      exact hd
    have e3 : getField (removeField body "api_key") "metadata" = mv := by
      rw [getField_removeField_of_ne body "api_key" "metadata" (by decide)]
      exact hm
    cases hres : drv.insertOne c
        (spread (spread dfs (objFields mv)) [("createdAt", .jtime now)]) with
    | ok oid =>
        simp [insertHandler, e1, e2, e3, truthyOpt_some, truthy_jobj,
              objFields_some_jobj, htc, hconn, hdb, hres]
    | error msg =>
        simp [insertHandler, e1, e2, e3, truthyOpt_some, truthy_jobj,
              objFields_some_jobj, htc, hconn, hdb, hres]
  · rw [getField_spread_of_none (spread dfs (objFields mv))
          [("createdAt", JVal.jtime now)] "api_key" rfl,
        getField_spread_of_none dfs (objFields mv) "api_key" hma]
    exact hda

/-- C5 witness: an authenticated insert of {a:1} with metadata {source:"qc"}
persists a record with no api_key key, and the stripped body no longer has
one either. -/
theorem api_key_not_persisted_witness :
    getField [("a", JVal.jnum 1)] "api_key" = none ∧
    ((route "secret" ⟨true, true⟩ 7 0 wDrv ⟨.POST, "/api/insert", wInsertMetaBody⟩).2 =
      [.insertOne (.jstr "c")
        (spread (spread [("a", JVal.jnum 1)]
            (objFields (some (.jobj [("source", JVal.jstr "qc")]))))
          [("createdAt", .jtime 7)])] ∧
     getField (spread (spread [("a", JVal.jnum 1)]
          (objFields (some (.jobj [("source", JVal.jstr "qc")]))))
        [("createdAt", .jtime 7)]) "api_key" = none ∧
     getField (removeField wInsertMetaBody "api_key") "api_key" = none) :=
  ⟨rfl,
   api_key_not_persisted "secret" ⟨true, true⟩ 7 0 wDrv wInsertMetaBody
     (.jstr "c") [("a", JVal.jnum 1)] (some (.jobj [("source", JVal.jstr "qc")]))
     rfl rfl rfl rfl rfl rfl rfl rfl rfl rfl⟩

/-- C6: a POST to /api/insert_many with a valid api_key, a truthy collection
and an array of documents, while connected and with the driver inserting the
whole batch, stamps every element with the metadata and a createdAt before
bulk insertion and responds with insertedCount equal to the number of
documents; a request whose documents field is absent or not an array gets
400. -/
theorem insert_many_count (K : String) (st : ConnState) (now uptime : Nat)
    (drv : Driver) (body : Doc) (c : JVal) (ds : List JVal) (mv : Option JVal)
    (hA : truthyOpt (getField body "api_key") = true)
    (hK : strictEqStr (getField body "api_key") K = true)
    (hc : getField body "collection" = some c)
    (htc : truthy c = true)
    (hds : getField body "documents" = some (.jarr ds))
    (hm : getField body "metadata" = mv)
    (hconn : st.isConnected = true)
    (hdb : st.dbPresent = true)
    (hdrv : drv.insertMany c
        (ds.map (fun d => spread (spread (toObjFields d) (objFields mv))
          [("createdAt", .jtime now)])) =
      .ok ((ds.map (fun d => spread (spread (toObjFields d) (objFields mv))
        [("createdAt", .jtime now)])).length)) :
    route K st now uptime drv ⟨.POST, "/api/insert_many", body⟩ =
      (⟨200, [("success", .jbool true), ("insertedCount", .jnum ds.length),
              ("collection", c)]⟩,
       [.insertMany c (ds.map (fun d =>
          spread (spread (toObjFields d) (objFields mv)) [("createdAt", .jtime now)]))]) ∧
    (∀ r ∈ ds.map (fun d =>
        spread (spread (toObjFields d) (objFields mv)) [("createdAt", .jtime now)]),
      getField r "createdAt" = some (.jtime now)) ∧
    (∀ b2 : Doc, truthyOpt (getField b2 "api_key") = true →
      strictEqStr (getField b2 "api_key") K = true →
      isArrayOpt (getField b2 "documents") = false →
      route K st now uptime drv ⟨.POST, "/api/insert_many", b2⟩ =
        (mkErrorResp 400 "Missing required fields: collection, documents (array)", [])) := by
  refine ⟨?_, ?_, ?_⟩
  · have hr : route K st now uptime drv ⟨.POST, "/api/insert_many", body⟩ =
        withAuth K body (insertManyHandler st now drv) := rfl
    rw [hr, withAuth_ok K body _ hA hK]
    have e1 : getField (removeField body "api_key") "collection" = some c := by
      rw [getField_removeField_of_ne body "api_key" "collection" (by decide)]
      exact hc
    have e2 : getField (removeField body "api_key") "documents" = some (.jarr ds) := by
      rw [getField_removeField_of_ne body "api_key" "documents" (by decide)]
      exact hds
    have e3 : getField (removeField body "api_key") "metadata" = mv := by
      rw [getField_removeField_of_ne body "api_key" "metadata" (by decide)]
      exact hm
    simp [insertManyHandler, e1, e2, e3, truthyOpt_some, truthy_jarr,
          isArrayOpt_jarr, arrElems_jarr, htc, hconn, hdb, hdrv]
  · intro r hr
    rcases List.mem_map.mp hr with ⟨d, _, rfl⟩
    exact getField_spread_of_some _ _ _ _ rfl
  · intro b2 hA2 hK2 harr2
    have hr : route K st now uptime drv ⟨.POST, "/api/insert_many", b2⟩ =
        withAuth K b2 (insertManyHandler st now drv) := rfl
    rw [hr, withAuth_ok K b2 _ hA2 hK2]
    have e2 : getField (removeField b2 "api_key") "documents" = getField b2 "documents" :=
      getField_removeField_of_ne b2 "api_key" "documents" (by decide)
    simp [insertManyHandler, e2, harr2]

/-- C6 witness: bulk-inserting [{a:1},{a:2}] yields insertedCount 2, each
stamped element has the server createdAt, and a request whose documents
field is the string "nope" gets 400. -/
theorem insert_many_count_witness :
    wDrv.insertMany (.jstr "c")
        ([JVal.jobj [("a", JVal.jnum 1)], JVal.jobj [("a", JVal.jnum 2)]].map
          (fun d => spread (spread (toObjFields d) (objFields none))
            [("createdAt", .jtime 7)])) =
      .ok (([JVal.jobj [("a", JVal.jnum 1)], JVal.jobj [("a", JVal.jnum 2)]].map
          (fun d => spread (spread (toObjFields d) (objFields none))
            [("createdAt", .jtime 7)])).length) ∧
    route "secret" ⟨true, true⟩ 7 0 wDrv ⟨.POST, "/api/insert_many", wManyBody⟩ =
      (⟨200, [("success", .jbool true), ("insertedCount", .jnum 2),
              ("collection", .jstr "c")]⟩,
       [.insertMany (.jstr "c")
          ([JVal.jobj [("a", JVal.jnum 1)], JVal.jobj [("a", JVal.jnum 2)]].map
            (fun d => spread (spread (toObjFields d) (objFields none))
              [("createdAt", .jtime 7)]))]) ∧
    getField (spread (spread (toObjFields (.jobj [("a", JVal.jnum 1)]))
        (objFields none)) [("createdAt", .jtime 7)]) "createdAt" =
      some (.jtime 7) ∧
    route "secret" ⟨true, true⟩ 7 0 wDrv
        ⟨.POST, "/api/insert_many",
         [("api_key", JVal.jstr "secret"), ("collection", JVal.jstr "c"),
          ("documents", JVal.jstr "nope")]⟩ =
      (mkErrorResp 400 "Missing required fields: collection, documents (array)", []) := by
  have T := insert_many_count "secret" ⟨true, true⟩ 7 0 wDrv wManyBody
    (.jstr "c") [JVal.jobj [("a", JVal.jnum 1)], JVal.jobj [("a", JVal.jnum 2)]]
    none rfl rfl rfl rfl rfl rfl rfl rfl rfl
  exact ⟨rfl, T.1, T.2.1 _ (by simp), T.2.2 _ rfl rfl rfl⟩

/-- C7: a PUT to /api/update with a valid api_key, truthy collection, filter
and update, while connected: the driver is called with the filter verbatim
and a set-these-fields update stamped with a server updatedAt; the response
reports the driver's matched and modified counts; in particular, against a
store where no document matches the filter, the response is success:true
with matchedCount 0 and modifiedCount 0, not an error. -/
theorem update_counts (K : String) (st : ConnState) (now uptime : Nat)
    (body : Doc) (c f u : JVal) (store : List Doc) (oid : String)
    (hA : truthyOpt (getField body "api_key") = true)
    (hK : strictEqStr (getField body "api_key") K = true)
    (hc : getField body "collection" = some c)
    (htc : truthy c = true)
    (hf : getField body "filter" = some f)
    (htf : truthy f = true)
    (hu : getField body "update" = some u)
    (htu : truthy u = true)
    (hconn : st.isConnected = true)
    (hdb : st.dbPresent = true) :
    (∀ (drv : Driver) (m mo : Nat),
      drv.updateOne c f (spread (toObjFields u) [("updatedAt", .jtime now)]) =
          .ok (m, mo) →
      route K st now uptime drv ⟨.PUT, "/api/update", body⟩ =
        (⟨200, [("success", .jbool true), ("matchedCount", .jnum m),
                ("modifiedCount", .jnum mo), ("collection", c)]⟩,
         [.updateOne c f (spread (toObjFields u) [("updatedAt", .jtime now)])])) ∧
    (store.find? (docMatches (toObjFields f)) = none →
      route K st now uptime (storeDriver oid store) ⟨.PUT, "/api/update", body⟩ =
        (⟨200, [("success", .jbool true), ("matchedCount", .jnum 0),
                ("modifiedCount", .jnum 0), ("collection", c)]⟩,
         [.updateOne c f (spread (toObjFields u) [("updatedAt", .jtime now)])])) ∧
    getField (spread (toObjFields u) [("updatedAt", .jtime now)]) "updatedAt" =
      some (.jtime now) := by
  have main : ∀ (drv : Driver) (m mo : Nat),
      drv.updateOne c f (spread (toObjFields u) [("updatedAt", .jtime now)]) =
          .ok (m, mo) →
      route K st now uptime drv ⟨.PUT, "/api/update", body⟩ =
        (⟨200, [("success", .jbool true), ("matchedCount", .jnum m),
                ("modifiedCount", .jnum mo), ("collection", c)]⟩,
         [.updateOne c f (spread (toObjFields u) [("updatedAt", .jtime now)])]) := by
    intro drv m mo hdrv
    have hr : route K st now uptime drv ⟨.PUT, "/api/update", body⟩ =
        withAuth K body (updateHandler st now drv) := rfl
    rw [hr, withAuth_ok K body _ hA hK]
    have e1 : getField (removeField body "api_key") "collection" = some c := by
      rw [getField_removeField_of_ne body "api_key" "collection" (by decide)]
      exact hc
    have e2 : getField (removeField body "api_key") "filter" = some f := by
      rw [getField_removeField_of_ne body "api_key" "filter" (by decide)]
      exact hf
    have e3 : getField (removeField body "api_key") "update" = some u := by
      rw [getField_removeField_of_ne body "api_key" "update" (by decide)]
      exact hu
    simp [updateHandler, e1, e2, e3, truthyOpt_some, objFields_some,
          htc, htf, htu, hconn, hdb, hdrv]
  refine ⟨main, ?_, getField_spread_of_some _ _ _ _ rfl⟩
  intro hnomatch
  apply main (storeDriver oid store) 0 0
  simp [storeDriver, mongoUpdateOne, hnomatch]

/-- C7 witness: updating with filter {a:1} and update {b:2} against a store
holding only {x:9} (so nothing matches) yields success with matchedCount 0
and modifiedCount 0, and the set-fields object carries the server
updatedAt. -/
theorem update_counts_witness :
    ([[("x", JVal.jnum 9)]] : List Doc).find?
        (docMatches (toObjFields (.jobj [("a", JVal.jnum 1)]))) = none ∧
    route "secret" ⟨true, true⟩ 7 0 (storeDriver "z" [[("x", JVal.jnum 9)]])
        ⟨.PUT, "/api/update", wUpdateBody⟩ =
      (⟨200, [("success", .jbool true), ("matchedCount", .jnum 0),
              ("modifiedCount", .jnum 0), ("collection", .jstr "c")]⟩,
       [.updateOne (.jstr "c") (.jobj [("a", JVal.jnum 1)])
          (spread (toObjFields (.jobj [("b", JVal.jnum 2)]))
            [("updatedAt", .jtime 7)])]) ∧
    getField (spread (toObjFields (.jobj [("b", JVal.jnum 2)]))
        [("updatedAt", .jtime 7)]) "updatedAt" = some (.jtime 7) := by
  have T := update_counts "secret" ⟨true, true⟩ 7 0 wUpdateBody
    (.jstr "c") (.jobj [("a", JVal.jnum 1)]) (.jobj [("b", JVal.jnum 2)])
    [[("x", JVal.jnum 9)]] "z"
    rfl rfl rfl rfl rfl rfl rfl rfl rfl rfl
  exact ⟨rfl, T.2.1 rfl, T.2.2⟩

/-- C8: a failed connection attempt leaves isConnected false, schedules
another connectDB run after exactly 5000 milliseconds, and never terminates
the process (whatever the attempt's outcome); the listener keeps serving, a
valid authenticated insert request in the resulting state being answered 503
with no database call. -/
theorem connect_failure_retries (sst : ServerState) (K : String)
    (now uptime : Nat) (drv : Driver) (body : Doc)
    (hA : truthyOpt (getField body "api_key") = true)
    (hK : strictEqStr (getField body "api_key") K = true)
    (hc : truthyOpt (getField body "collection") = true)
    (hd : truthyOpt (getField body "document") = true) :
    (connectDB false sst).conn.isConnected = false ∧
    (connectDB false sst).pendingRetryDelayMs = some 5000 ∧
    (∀ ok : Bool, (connectDB ok sst).terminated = sst.terminated) ∧
    route K (connectDB false sst).conn now uptime drv
        ⟨.POST, "/api/insert", body⟩ =
      (mkErrorResp 503 "Database not connected", []) := by
  refine ⟨by simp [connectDB], by simp [connectDB], ?_, ?_⟩
  · intro ok
    cases ok <;> simp [connectDB]
  · have hr : route K (connectDB false sst).conn now uptime drv
        ⟨.POST, "/api/insert", body⟩ =
        withAuth K body (insertHandler (connectDB false sst).conn now drv) := rfl
    rw [hr, withAuth_ok K body _ hA hK]
    have e1 : getField (removeField body "api_key") "collection" =
        getField body "collection" :=
      getField_removeField_of_ne body "api_key" "collection" (by decide)
    have e2 : getField (removeField body "api_key") "document" =
        getField body "document" :=
      getField_removeField_of_ne body "api_key" "document" (by decide)
    simp [insertHandler, e1, e2, hc, hd, connectDB]

/-- C8 witness: starting from a connected, live process, a failed attempt
flips isConnected off, schedules the 5-second retry, leaves the process
alive whichever way an attempt goes, and a well-formed insert request then
gets 503. -/
theorem connect_failure_retries_witness :
    (connectDB false ⟨⟨true, true⟩, none, false⟩).conn.isConnected = false ∧
    (connectDB false ⟨⟨true, true⟩, none, false⟩).pendingRetryDelayMs = some 5000 ∧
    (connectDB true ⟨⟨true, true⟩, none, false⟩).terminated = false ∧
    (connectDB false ⟨⟨true, true⟩, none, false⟩).terminated = false ∧
    route "secret" (connectDB false ⟨⟨true, true⟩, none, false⟩).conn 1 2 wDrv
        ⟨.POST, "/api/insert", wInsertBody⟩ =
      (mkErrorResp 503 "Database not connected", []) := by
  have T := connect_failure_retries ⟨⟨true, true⟩, none, false⟩ "secret" 1 2
    wDrv wInsertBody rfl rfl rfl rfl
  exact ⟨T.1, T.2.1, T.2.2.1 true, T.2.2.1 false, T.2.2.2⟩

/-- C9: in the record built for persistence, later spread sources win: a key
present in metadata takes metadata's value over the document's, a key absent
from metadata keeps the document's value, and the server-generated createdAt
(updatedAt for update) overwrites any caller-supplied value of that key, so
a caller can never choose createdAt or updatedAt. -/
theorem merge_precedence (dfs mfs ufs : Doc) (now : Nat) (k : String) (v : JVal) :
    getField (spread (spread dfs mfs) [("createdAt", .jtime now)]) "createdAt" =
      some (.jtime now) ∧
    (k ≠ "createdAt" → getField mfs k = some v →
      getField (spread (spread dfs mfs) [("createdAt", .jtime now)]) k = some v) ∧
    (k ≠ "createdAt" → getField mfs k = none →
      getField (spread (spread dfs mfs) [("createdAt", .jtime now)]) k =
        getField dfs k) ∧
    getField (spread ufs [("updatedAt", .jtime now)]) "updatedAt" =
      some (.jtime now) ∧
    (k ≠ "updatedAt" →
      getField (spread ufs [("updatedAt", .jtime now)]) k = getField ufs k) := by
  refine ⟨getField_spread_of_some _ _ _ _ (getField_singleton_self _ _), ?_, ?_,
          getField_spread_of_some _ _ _ _ (getField_singleton_self _ _), ?_⟩
  · intro hk hm
    rw [getField_spread_of_none _ _ _
          (getField_singleton_ne k "createdAt" _ (Ne.symm hk))]
    exact getField_spread_of_some _ _ _ _ hm
  · intro hk hm
    rw [getField_spread_of_none _ _ _
          (getField_singleton_ne k "createdAt" _ (Ne.symm hk))]
    exact getField_spread_of_none _ _ _ hm
  · intro hk
    exact getField_spread_of_none _ _ _
      (getField_singleton_ne k "updatedAt" _ (Ne.symm hk))

/-- C9 witness: with document {a:1, createdAt:"fake"} and metadata {a:5},
the record's createdAt is the server Date (the caller's "fake" is
overwritten), metadata's a:5 wins over the document's a:1, and an update's
set-fields keep caller keys other than updatedAt. -/
theorem merge_precedence_witness :
    getField (spread (spread [("a", JVal.jnum 1), ("createdAt", JVal.jstr "fake")]
        [("a", JVal.jnum 5)]) [("createdAt", .jtime 7)]) "createdAt" =
      some (.jtime 7) ∧
    getField (spread (spread [("a", JVal.jnum 1), ("createdAt", JVal.jstr "fake")]
        [("a", JVal.jnum 5)]) [("createdAt", .jtime 7)]) "a" =
      some (JVal.jnum 5) ∧
    getField (spread [("b", JVal.jnum 2)] [("updatedAt", .jtime 7)]) "updatedAt" =
      some (.jtime 7) ∧
    getField (spread [("b", JVal.jnum 2)] [("updatedAt", .jtime 7)]) "b" =
      getField [("b", JVal.jnum 2)] "b" := by
  have T := merge_precedence [("a", JVal.jnum 1), ("createdAt", JVal.jstr "fake")]
    [("a", JVal.jnum 5)] [("b", JVal.jnum 2)] 7 "a" (JVal.jnum 5)
  have T2 := merge_precedence [("a", JVal.jnum 1), ("createdAt", JVal.jstr "fake")]
    [("a", JVal.jnum 5)] [("b", JVal.jnum 2)] 7 "b" (JVal.jnum 2)
  exact ⟨T.1, T.2.1 (by decide) rfl, T.2.2.2.1, T2.2.2.2.2 (by decide)⟩

/-- C10: checks apply in a fixed order on every data endpoint:
authentication first (a body with no api_key field gets 401 whatever the
rest of the request or the connection state), then required-field validation
(a valid key with a present-but-empty collection gets that endpoint's 400,
even while disconnected, because required fields are tested by truthiness),
then connectivity (valid key and fields while disconnected gets 503 with no
database call). -/
theorem check_order (K : String) (st : ConnState) (now uptime : Nat)
    (drv : Driver) :
    (∀ (m : Method) (p : String) (body : Doc), dataEndpoint m p = true →
      getField body "api_key" = none →
      route K st now uptime drv ⟨m, p, body⟩ =
        (mkErrorResp 401 "Missing api_key in request body", [])) ∧
    (∀ body : Doc, truthyOpt (getField body "api_key") = true →
      strictEqStr (getField body "api_key") K = true →
      getField body "collection" = some (.jstr "") →
      route K st now uptime drv ⟨.POST, "/api/insert", body⟩ =
        (mkErrorResp 400 "Missing required fields: collection, document", []) ∧
      route K st now uptime drv ⟨.POST, "/api/insert_many", body⟩ =
        (mkErrorResp 400 "Missing required fields: collection, documents (array)", []) ∧
      route K st now uptime drv ⟨.PUT, "/api/update", body⟩ =
        (mkErrorResp 400 "Missing required fields: collection, filter, update", [])) ∧
    (∀ body : Doc, truthyOpt (getField body "api_key") = true →
      strictEqStr (getField body "api_key") K = true →
      truthyOpt (getField body "collection") = true →
      truthyOpt (getField body "document") = true →
      st.isConnected = false →
      route K st now uptime drv ⟨.POST, "/api/insert", body⟩ =
        (mkErrorResp 503 "Database not connected", [])) := by
  refine ⟨?_, ?_, ?_⟩
  · intro m p body hmp hkey
    rw [route_dataEndpoint K st now uptime drv m p body hmp]
    apply withAuth_missing
    rw [hkey]
    rfl
  · intro body hA hK hc
    have e1 : getField (removeField body "api_key") "collection" =
        some (.jstr "") := by
      rw [getField_removeField_of_ne body "api_key" "collection" (by decide)]
      exact hc
    refine ⟨?_, ?_, ?_⟩
    · have hr : route K st now uptime drv ⟨.POST, "/api/insert", body⟩ =
          withAuth K body (insertHandler st now drv) := rfl
      rw [hr, withAuth_ok K body _ hA hK]
      simp [insertHandler, e1, truthyOpt_some, truthy]
    · have hr : route K st now uptime drv ⟨.POST, "/api/insert_many", body⟩ =
          withAuth K body (insertManyHandler st now drv) := rfl
      rw [hr, withAuth_ok K body _ hA hK]
      simp [insertManyHandler, e1, truthyOpt_some, truthy]
    · have hr : route K st now uptime drv ⟨.PUT, "/api/update", body⟩ =
          withAuth K body (updateHandler st now drv) := rfl
      rw [hr, withAuth_ok K body _ hA hK]
      simp [updateHandler, e1, truthyOpt_some, truthy]
  · intro body hA hK hc hd hconn
    have hr : route K st now uptime drv ⟨.POST, "/api/insert", body⟩ =
        withAuth K body (insertHandler st now drv) := rfl
    rw [hr, withAuth_ok K body _ hA hK]
    have e1 : getField (removeField body "api_key") "collection" =
        getField body "collection" :=
      getField_removeField_of_ne body "api_key" "collection" (by decide)
    have e2 : getField (removeField body "api_key") "document" =
        getField body "document" :=
      getField_removeField_of_ne body "api_key" "document" (by decide)
    simp [insertHandler, e1, e2, hc, hd, hconn]

/-- C10 witness: while disconnected, an update request with no api_key gets
401, an insert with a valid key but collection "" gets 400 (not 503), and a
fully valid insert gets 503. -/
theorem check_order_witness :
    dataEndpoint .PUT "/api/update" = true ∧
    route "secret" ⟨false, false⟩ 0 0 wDrv
        ⟨.PUT, "/api/update", [("collection", JVal.jstr "c")]⟩ =
      (mkErrorResp 401 "Missing api_key in request body", []) ∧
    route "secret" ⟨false, false⟩ 0 0 wDrv
        ⟨.POST, "/api/insert",
         [("api_key", JVal.jstr "secret"), ("collection", JVal.jstr ""),
          ("document", JVal.jobj [("a", JVal.jnum 1)])]⟩ =
      (mkErrorResp 400 "Missing required fields: collection, document", []) ∧
    route "secret" ⟨false, false⟩ 0 0 wDrv ⟨.POST, "/api/insert", wInsertBody⟩ =
      (mkErrorResp 503 "Database not connected", []) := by
  have T := check_order "secret" ⟨false, false⟩ 0 0 wDrv
  exact ⟨by decide, T.1 .PUT "/api/update" _ (by decide) rfl,
         (T.2.1 [("api_key", JVal.jstr "secret"), ("collection", JVal.jstr ""),
                 ("document", JVal.jobj [("a", JVal.jnum 1)])] rfl rfl rfl).1,
         T.2.2 wInsertBody rfl rfl rfl rfl rfl⟩

end MongoApi
